import Mathlib

/-!
Shallow embedding of `src/database-adv-script/script.py`.

The script is a straight-line program against an SQLite file
`air_bnb_database.db`:

1. `sqlite3.connect` — opens the store, creating the file if absent;
2. `CREATE TABLE IF NOT EXISTS users (id INTEGER PRIMARY KEY, name TEXT
   NOT NULL, email TEXT UNIQUE NOT NULL);` — DDL, executed outside any
   transaction, hence immediately durable;
3. `INSERT INTO users (name, email) VALUES ('John Doe',
   'mosaproject1@gmail.com');` — the id is auto-assigned (SQLite rowid:
   one more than the current maximum); violating a constraint raises an
   uncaught exception that terminates the process before anything is
   printed and before `connection.close()` is reached;
4. `connection.commit()` — makes the insertion durable;
5. `SELECT * FROM users;` with `fetchall` — rows in rowid scan order;
6. `print("Users in the database:")` then `print(row)` for each row —
   each row is a Python tuple, rendered `(id, 'name', 'email')`;
7. `connection.close()`.

SQL values may be NULL, so the insert operation takes `Option String`
arguments; the NOT NULL constraint rejects exactly `none` (SQLite does
not reject the empty string). Rows that made it into the table hold
plain strings.
-/

/-- One row of the `users` table: `(id INTEGER PRIMARY KEY, name TEXT
NOT NULL, email TEXT UNIQUE NOT NULL)`. -/
structure UserRow where
  id : Int
  name : String
  email : String
deriving DecidableEq

/-- Contents of the database file: whether the `users` table exists, and
its rows in rowid (insertion) order. -/
structure DBState where
  tableExists : Bool
  rows : List UserRow
deriving DecidableEq

/-- Errors the store can raise on the statements the script runs. -/
inductive SqlError where
  | noSuchTable
  | notNullViolation
  | uniqueViolation
deriving DecidableEq

/-- `sqlite3.connect('air_bnb_database.db')`: a missing file (`none`) is
created empty, an existing file is opened as is. -/
def connect (file : Option DBState) : DBState :=
  file.getD { tableExists := false, rows := [] }

/-- `CREATE TABLE IF NOT EXISTS users (...)`: creates the table when it
is absent and is a no-op when it already exists. -/
def createTableIfNotExists (s : DBState) : DBState :=
  { s with tableExists := true }

/-- The largest id present (0 for an empty table), as SQLite's rowid
allocator sees it. -/
def maxId (rows : List UserRow) : Int :=
  rows.foldl (fun m r => max m r.id) 0

/-- The rowid SQLite assigns to the next inserted row: one more than the
current maximum. -/
def nextId (rows : List UserRow) : Int :=
  maxId rows + 1

/-- `INSERT INTO users (name, email) VALUES (?, ?)`: fails when the
table is missing, when a NOT NULL column receives NULL, or when the
UNIQUE constraint on `email` is violated; otherwise appends the row with
an auto-assigned id. -/
def insertUser (s : DBState) (name email : Option String) :
    Except SqlError DBState :=
  if s.tableExists = false then .error .noSuchTable
  else
    match name, email with
    | none, _ => .error .notNullViolation
    | _, none => .error .notNullViolation
    | some n, some e =>
      if s.rows.any (fun r => r.email == e) then .error .uniqueViolation
      else .ok { s with rows := s.rows ++ [⟨nextId s.rows, n, e⟩] }

/-- The state of the store after attempting an insert, paired with the
error if one was raised: a failing insert leaves the table unchanged. -/
def tryInsert (s : DBState) (name email : Option String) :
    DBState × Option SqlError :=
  match insertUser s name email with
  | .ok t => (t, none)
  | .error e => (s, some e)

/-- `SELECT * FROM users;` followed by `fetchall()`: all rows in the
store's scan order. -/
def selectAll (s : DBState) : List UserRow :=
  s.rows

/-- A live connection: the durable file contents (`disk`), the contents
as this connection sees them including uncommitted writes (`mem`), and
whether the handle is still open. -/
structure Conn where
  disk : DBState
  mem : DBState
  isOpen : Bool
deriving DecidableEq

/-- Open the connection, creating the file if absent. -/
def openConn (file : Option DBState) : Conn :=
  let s := connect file
  { disk := s, mem := s, isOpen := true }

/-- Execute the CREATE TABLE statement. No transaction is active at this
point in the script, so the DDL is immediately durable. -/
def execCreate (c : Conn) : Conn :=
  let s := createTableIfNotExists c.mem
  { c with mem := s, disk := s }

/-- Execute the INSERT statement: it writes inside the implicit
transaction, so only `mem` changes until a commit. -/
def execInsert (c : Conn) (name email : Option String) :
    Except SqlError Conn :=
  (insertUser c.mem name email).map (fun s => { c with mem := s })

/-- `connection.commit()`: the pending writes become durable. -/
def commit (c : Conn) : Conn :=
  { c with disk := c.mem }

/-- `connection.close()`. -/
def closeConn (c : Conn) : Conn :=
  { c with isOpen := false }

/-- The name literal hard-coded in the INSERT statement. -/
def johnName : String := "John Doe"

/-- The email literal hard-coded in the INSERT statement. -/
def johnEmail : String := "mosaproject1@gmail.com"

/-- The header line the script prints. -/
def header : String := "Users in the database:"

/-- Python's `print(row)` on a fetched row tuple: `(id, 'name', 'email')`. -/
def rowRepr (r : UserRow) : String :=
  "(" ++ toString r.id ++ ", '" ++ r.name ++ "', '" ++ r.email ++ "')"

/-- Observable outcome of one process run: the database file afterwards
(`some` means the file exists), the lines written to standard output,
the uncaught error that terminated the process if any, and whether the
script's own `connection.close()` statement was executed. -/
structure ScriptResult where
  store : Option DBState
  output : List String
  error : Option SqlError
  closedByScript : Bool
deriving DecidableEq

/-- The whole script, as a function of the initial database file. On a
constraint violation the exception propagates: nothing is printed, the
`close` on line 29 is never reached, and the uncommitted insert is lost
while the already-durable DDL survives. -/
def runScript (file : Option DBState) : ScriptResult :=
  let c0 := openConn file
  let c1 := execCreate c0
  match execInsert c1 (some johnName) (some johnEmail) with
  | .error e =>
    { store := some c1.disk, output := [], error := some e,
      closedByScript := false }
  | .ok c2 =>
    let c3 := commit c2
    let fetched := selectAll c3.mem
    let c4 := closeConn c3
    { store := some c4.disk,
      output := header :: fetched.map rowRepr,
      error := none,
      closedByScript := !c4.isOpen }

/-- All email values in the table are pairwise distinct. -/
def emailsDistinct (s : DBState) : Prop :=
  (s.rows.map UserRow.email).Nodup

/-- All id values in the table are pairwise distinct. -/
def idsDistinct (s : DBState) : Prop :=
  (s.rows.map UserRow.id).Nodup

/-- The row the script inserts into a table whose rows were `l`. -/
def johnRow (l : List UserRow) : UserRow :=
  { id := nextId l, name := johnName, email := johnEmail }

/-! ### Helper lemmas -/

theorem le_foldl_max_acc (l : List UserRow) (a : Int) :
    a ≤ l.foldl (fun m r => max m r.id) a := by
  induction l generalizing a with
  | nil => exact le_refl a
  | cons x xs ih =>
    exact le_trans (le_max_left a x.id) (ih (max a x.id))

theorem mem_le_foldl_max {r : UserRow} {l : List UserRow} (h : r ∈ l)
    (a : Int) : r.id ≤ l.foldl (fun m r => max m r.id) a := by
  induction l generalizing a with
  | nil => cases h
  | cons x xs ih =>
    rcases List.mem_cons.mp h with rfl | hx
    · exact le_trans (le_max_right a r.id) (le_foldl_max_acc xs (max a r.id))
    · exact ih hx (max a x.id)

theorem mem_id_lt_nextId {r : UserRow} {l : List UserRow} (h : r ∈ l) :
    r.id < nextId l := by
  have := mem_le_foldl_max h 0
  simp only [nextId, maxId]
  omega

theorem any_email_true_of_mem (s : DBState)
    (h : ∃ r ∈ s.rows, r.email = johnEmail) :
    s.rows.any (fun r => r.email == johnEmail) = true := by
  simp only [List.any_eq_true, beq_iff_eq]
  exact h

theorem any_email_false_of_not (s : DBState)
    (h : ∀ r ∈ s.rows, r.email ≠ johnEmail) :
    s.rows.any (fun r => r.email == johnEmail) = false := by
  simp only [List.any_eq_false, beq_iff_eq]
  exact h

theorem runScript_dup (s : DBState)
    (hb : s.rows.any (fun r => r.email == johnEmail) = true) :
    runScript (some s) =
      { store := some { s with tableExists := true }, output := [],
        error := some SqlError.uniqueViolation, closedByScript := false } := by
  simp [runScript, openConn, execCreate, execInsert, insertUser, connect,
    createTableIfNotExists, Except.map, hb]

theorem runScript_ok (s : DBState)
    (hb : s.rows.any (fun r => r.email == johnEmail) = false) :
    runScript (some s) =
      { store := some { tableExists := true, rows := s.rows ++ [johnRow s.rows] },
        output := ("Users in the database:" :: (s.rows ++ [johnRow s.rows]).map rowRepr),
        error := none, closedByScript := true } := by
  simp [runScript, openConn, execCreate, execInsert, insertUser, connect,
    createTableIfNotExists, commit, closeConn, selectAll, header, johnRow,
    Except.map, hb]

theorem runScript_some_connect (file : Option DBState) :
    runScript file = runScript (some (connect file)) := by
  cases file <;> rfl

/-! ### The claims -/

/-- C1: running the script against a fresh (nonexistent) store file
creates the database file and the `users` table, and on completion the
table contains exactly the one row `(1, 'John Doe',
'mosaproject1@gmail.com')`; that row is also the one printed. -/
theorem c1_fresh_run_single_row :
    runScript none =
      { store := some ⟨true, [⟨1, "John Doe", "mosaproject1@gmail.com"⟩]⟩,
        output := ["Users in the database:",
                   "(1, 'John Doe', 'mosaproject1@gmail.com')"],
        error := none,
        closedByScript := true } := by
  decide

/-- C2: against any store that already holds a row with the script's
email (in particular the store a first run produced), the run fails with
the unique-constraint violation, the error is not caught (nothing is
printed and the close is never reached), and the `users` rows are left
exactly as they were — no partial duplicate insert. -/
theorem c2_second_run_fails_unchanged (s : DBState)
    (h : ∃ r ∈ s.rows, r.email = johnEmail) :
    (runScript (some s)).error = some SqlError.uniqueViolation ∧
    (runScript (some s)).output = [] ∧
    (runScript (some s)).store.map DBState.rows = some s.rows := by
  rw [runScript_dup s (any_email_true_of_mem s h)]
  simp

/-- C2 at the store a first run produces: the second run fails and the
single row survives unchanged. -/
theorem c2_second_run_fails_unchanged_witness :
    (runScript (some ⟨true, [⟨1, "John Doe", "mosaproject1@gmail.com"⟩]⟩)).error
      = some SqlError.uniqueViolation ∧
    (runScript (some ⟨true, [⟨1, "John Doe", "mosaproject1@gmail.com"⟩]⟩)).output
      = [] ∧
    (runScript (some ⟨true, [⟨1, "John Doe", "mosaproject1@gmail.com"⟩]⟩)).store.map
        DBState.rows
      = some [⟨1, "John Doe", "mosaproject1@gmail.com"⟩] :=
  c2_second_run_fails_unchanged ⟨true, [⟨1, "John Doe", "mosaproject1@gmail.com"⟩]⟩
    ⟨⟨1, "John Doe", "mosaproject1@gmail.com"⟩, by simp, rfl⟩

/-- C3 as stated is false: on the constraint-violation path of this
store the run fails and the script's `connection.close()` is never
executed, so the handle is not released by the script on that exit
path. -/
theorem c3_close_skipped_on_failure_counterexample :
    (runScript (some ⟨true, [⟨5, "Ann", "mosaproject1@gmail.com"⟩]⟩)).error
      = some SqlError.uniqueViolation ∧
    (runScript (some ⟨true, [⟨5, "Ann", "mosaproject1@gmail.com"⟩]⟩)).closedByScript
      = false := by
  decide

/-- C3 (amended): the script executes its close statement exactly on the
successful path; on a failing run the close is not reached and the
handle is released only by process termination. -/
theorem c3_close_iff_success (file : Option DBState) :
    (runScript file).closedByScript = (runScript file).error.isNone := by
  rw [runScript_some_connect]
  cases hb : (connect file).rows.any (fun r => r.email == johnEmail) with
  | false =>
    rw [runScript_ok _ hb]
    rfl
  | true =>
    rw [runScript_dup _ hb]
    rfl

/-- C4: the CREATE TABLE IF NOT EXISTS step is idempotent: running it
twice equals running it once, and against a store whose table already
exists it is the identity — no schema change and no data loss (the
operation is total, so no error is signalled). -/
theorem c4_create_table_idempotent (s : DBState) :
    createTableIfNotExists (createTableIfNotExists s)
      = createTableIfNotExists s ∧
    (s.tableExists = true → createTableIfNotExists s = s) := by
  refine ⟨rfl, fun h => ?_⟩
  cases s with
  | mk t rows =>
    subst h
    rfl

/-- C4 at a store that already has the table and one row: re-running the
creation step changes nothing. -/
theorem c4_create_table_idempotent_witness :
    createTableIfNotExists ⟨true, [⟨1, "John Doe", "mosaproject1@gmail.com"⟩]⟩
      = ⟨true, [⟨1, "John Doe", "mosaproject1@gmail.com"⟩]⟩ :=
  (c4_create_table_idempotent
    ⟨true, [⟨1, "John Doe", "mosaproject1@gmail.com"⟩]⟩).2 rfl

/-- C5 as stated is false at its own example: against a store holding
exactly the rows `(1, 'John Doe', 'a@x.com')` and `(2, 'Jane Roe',
'b@y.com')`, the run inserts its own record before the SELECT, so the
output is not the claimed header plus two lines. -/
theorem c5_example_output_counterexample :
    (runScript (some ⟨true, [⟨1, "John Doe", "a@x.com"⟩,
        ⟨2, "Jane Roe", "b@y.com"⟩]⟩)).output
      ≠ ["Users in the database:", "(1, 'John Doe', 'a@x.com')",
         "(2, 'Jane Roe', 'b@y.com')"] := by
  decide

/-- C5 (amended): on every successful run the output is exactly the
header line followed by one line per retrieved row in retrieval order,
each rendering (id, name, email); a failing run prints nothing; and the
retrieval happens after the script's insert, so on the example store a
third line `(3, 'John Doe', 'mosaproject1@gmail.com')` follows the two
claimed ones. -/
theorem c5_output_header_then_rows (file : Option DBState) :
    (((runScript file).error = none →
      ∃ t : DBState, (runScript file).store = some t ∧
        (runScript file).output = header :: (selectAll t).map rowRepr) ∧
     ((runScript file).error ≠ none → (runScript file).output = [])) ∧
    (runScript (some ⟨true, [⟨1, "John Doe", "a@x.com"⟩,
        ⟨2, "Jane Roe", "b@y.com"⟩]⟩)).output
      = ["Users in the database:", "(1, 'John Doe', 'a@x.com')",
         "(2, 'Jane Roe', 'b@y.com')",
         "(3, 'John Doe', 'mosaproject1@gmail.com')"] := by
  refine ⟨?_, by decide⟩
  rw [runScript_some_connect]
  cases hb : (connect file).rows.any (fun r => r.email == johnEmail) with
  | false =>
    rw [runScript_ok _ hb]
    exact ⟨fun _ =>
      ⟨⟨true, (connect file).rows ++ [johnRow (connect file).rows]⟩, rfl, rfl⟩,
      fun hne => absurd rfl hne⟩
  | true =>
    rw [runScript_dup _ hb]
    exact ⟨fun hc => by simp at hc, fun _ => rfl⟩

/-- C5's general part at the fresh store: the printed lines are the
header followed by the renderings of the final store's rows. -/
theorem c5_output_header_then_rows_witness :
    ∃ t : DBState, (runScript none).store = some t ∧
      (runScript none).output = header :: (selectAll t).map rowRepr :=
  (c5_output_header_then_rows none).1.1 rfl

/-- C6 as stated is false for the empty string: the NOT NULL constraint
rejects only NULL, so inserting a record with an empty (but non-NULL)
name succeeds and changes the table. -/
theorem c6_empty_name_accepted_counterexample :
    insertUser ⟨true, []⟩ (some "") (some "nobody@x.com")
      = Except.ok ⟨true, [⟨1, "", "nobody@x.com"⟩]⟩ := rfl

/-- C6 (amended): inserting a record whose name is NULL fails with the
NOT NULL constraint violation and leaves the `users` table unchanged; an
empty-string name is not rejected, since NOT NULL excludes only NULL. -/
theorem c6_null_name_rejected (s : DBState) (email : Option String)
    (h : s.tableExists = true) :
    tryInsert s none email = (s, some SqlError.notNullViolation) := by
  simp [tryInsert, insertUser, h]

/-- C6 at a concrete one-row store: a NULL-name insert reports the NOT
NULL violation and the row list is untouched. -/
theorem c6_null_name_rejected_witness :
    tryInsert ⟨true, [⟨1, "Bob", "bob@x.com"⟩]⟩ none (some "new@x.com")
      = (⟨true, [⟨1, "Bob", "bob@x.com"⟩]⟩, some SqlError.notNullViolation) :=
  c6_null_name_rejected ⟨true, [⟨1, "Bob", "bob@x.com"⟩]⟩ (some "new@x.com") rfl

theorem emailsDistinct_insert (l : List UserRow)
    (h1 : (l.map UserRow.email).Nodup)
    (hne : ∀ r ∈ l, r.email ≠ johnEmail) :
    ((l ++ [johnRow l]).map UserRow.email).Nodup := by
  rw [List.map_append, List.nodup_append]
  refine ⟨h1, List.nodup_singleton _, fun a ha hmem => ?_⟩
  rcases List.mem_map.mp ha with ⟨r, hr, rfl⟩
  have he : r.email = johnEmail := by simpa [johnRow] using hmem
  exact hne r hr he

theorem idsDistinct_insert (l : List UserRow)
    (h2 : (l.map UserRow.id).Nodup) :
    ((l ++ [johnRow l]).map UserRow.id).Nodup := by
  rw [List.map_append, List.nodup_append]
  refine ⟨h2, List.nodup_singleton _, fun a ha hmem => ?_⟩
  rcases List.mem_map.mp ha with ⟨r, hr, rfl⟩
  have hlt := mem_id_lt_nextId hr
  have he : r.id = nextId l := by simpa [johnRow] using hmem
  omega

/-- C7: the insertion is committed durably before the subsequent read:
on a run whose insert does not collide, the SELECT sees exactly the
committed store, whose rows include the newly inserted record, so the
printed lines include John Doe's row. -/
theorem c7_commit_before_read (s : DBState)
    (h : ∀ r ∈ s.rows, r.email ≠ johnEmail) :
    ∃ t : DBState, (runScript (some s)).store = some t ∧
      johnRow s.rows ∈ t.rows ∧
      (runScript (some s)).output = header :: (selectAll t).map rowRepr ∧
      rowRepr (johnRow s.rows) ∈ (runScript (some s)).output := by
  rw [runScript_ok s (any_email_false_of_not s h)]
  refine ⟨⟨true, s.rows ++ [johnRow s.rows]⟩, rfl, ?_, rfl, ?_⟩
  · simp
  · simp

/-- C7 at the fresh store: the printed lines include the inserted
record's rendering. -/
theorem c7_commit_before_read_witness :
    ∃ t : DBState, (runScript (some ⟨false, []⟩)).store = some t ∧
      johnRow [] ∈ t.rows ∧
      (runScript (some ⟨false, []⟩)).output
        = header :: (selectAll t).map rowRepr ∧
      rowRepr (johnRow []) ∈ (runScript (some ⟨false, []⟩)).output :=
  c7_commit_before_read ⟨false, []⟩ (by simp)

/-- C8: starting from a store whose email values are pairwise distinct
and whose id values are pairwise distinct, the run preserves both
invariants and keeps every pre-existing row: a colliding insertion fails
instead of silently duplicating. -/
theorem c8_distinctness_invariant (file : Option DBState)
    (h1 : emailsDistinct (connect file)) (h2 : idsDistinct (connect file)) :
    ∃ t : DBState, (runScript file).store = some t ∧
      emailsDistinct t ∧ idsDistinct t ∧
      ∀ r ∈ (connect file).rows, r ∈ t.rows := by
  rw [runScript_some_connect]
  cases hb : (connect file).rows.any (fun r => r.email == johnEmail) with
  | true =>
    rw [runScript_dup _ hb]
    exact ⟨⟨true, (connect file).rows⟩, rfl, h1, h2, fun r hr => hr⟩
  | false =>
    rw [runScript_ok _ hb]
    have hne : ∀ r ∈ (connect file).rows, r.email ≠ johnEmail := by
      rw [List.any_eq_false] at hb
      intro r hr
      simpa using hb r hr
    exact ⟨⟨true, (connect file).rows ++ [johnRow (connect file).rows]⟩, rfl,
      emailsDistinct_insert _ h1 hne, idsDistinct_insert _ h2,
      fun r hr => List.mem_append_left _ hr⟩

/-- C8 at the fresh store: the final store satisfies both distinctness
invariants. -/
theorem c8_distinctness_invariant_witness :
    ∃ t : DBState, (runScript none).store = some t ∧
      emailsDistinct t ∧ idsDistinct t ∧
      ∀ r ∈ (connect none).rows, r ∈ t.rows :=
  c8_distinctness_invariant none (by simp [emailsDistinct, connect])
    (by simp [idsDistinct, connect])

/-- C9 (frame): from any store with no row carrying the script's email,
the run succeeds, appends exactly one new row, and leaves every
pre-existing row of the `users` table unchanged — no update and no
delete. -/
theorem c9_single_append_frame (s : DBState)
    (h : ∀ r ∈ s.rows, r.email ≠ johnEmail) :
    (runScript (some s)).error = none ∧
    (runScript (some s)).store = some ⟨true, s.rows ++ [johnRow s.rows]⟩ := by
  rw [runScript_ok s (any_email_false_of_not s h)]
  exact ⟨rfl, rfl⟩

/-- C9 at a one-row store: the pre-existing row is untouched and exactly
John Doe's row is appended. -/
theorem c9_single_append_frame_witness :
    (runScript (some ⟨true, [⟨1, "Alice", "alice@x.com"⟩]⟩)).error = none ∧
    (runScript (some ⟨true, [⟨1, "Alice", "alice@x.com"⟩]⟩)).store
      = some ⟨true, [⟨1, "Alice", "alice@x.com"⟩,
                     ⟨2, "John Doe", "mosaproject1@gmail.com"⟩]⟩ :=
  c9_single_append_frame ⟨true, [⟨1, "Alice", "alice@x.com"⟩]⟩ (by decide)

/-- C10: the script reads no arguments, environment variables or other
input: its observable behaviour is a function of the initial store
alone, so two runs from identical initial stores write identical output
and leave identical final store contents. -/
theorem c10_deterministic (f1 f2 : Option DBState) (h : f1 = f2) :
    (runScript f1).output = (runScript f2).output ∧
    (runScript f1).store = (runScript f2).store ∧
    runScript f1 = runScript f2 := by
  subst h
  exact ⟨rfl, rfl, rfl⟩

/-- C10 at the fresh store: two fresh runs agree exactly. -/
theorem c10_deterministic_witness :
    (runScript none).output = (runScript none).output ∧
    (runScript none).store = (runScript none).store ∧
    runScript none = runScript none :=
  c10_deterministic none none rfl
